import Mathlib

/-!
Verification of FortuneBot (`src/main.py`).

A shallow embedding of the FortuneBot program: it runs a shell command,
renders the captured output into a PNG, and posts the image to the Telegram
`sendPhoto` endpoint with a timestamp-derived caption.

The embedding models:
* `get_output` — capture of the command runner result (timeout handling,
  stdout truthiness, stderr diagnostic);
* `measure_line` — the three-tier text-measurement fallback of
  `FortuneBot._measure_line`;
* `render_image_canvas` — the line-splitting, measurement pass and canvas
  sizing of `FortuneBot.render_image`;
* `post_photo` — the multipart request construction, `raise_for_status`
  and body parsing of `FortuneBot.post_photo`;
* `run_once` — the orchestrator, with its exit codes 0/3/4/5 and its
  exception handling.

Injected collaborators (the command runner, the clock, the rendering of an
output string to PNG bytes, and the HTTP transport) are fields of the `Bot`
structure, mirroring the dependency-injection points of the constructor.
Python exceptions are modelled by the inductive `PyExc`; a computation that
may raise has type `Except PyExc _`.
-/

set_option autoImplicit false
set_option maxRecDepth 4096

namespace FortuneBot

/-! ## Python string primitives used by the source -/

/-- Model of `s.rstrip("\n")`: remove
all trailing `'\n'` characters. -/
def rstripNewlines (s : String) : String :=
  String.mk ((s.toList.reverse.dropWhile (fun c => c = '\n')).reverse)

/-- Truthiness of `getattr(p, attr, None)` for an optional string attribute:
`None` and the empty string are falsy, every other string is truthy. -/
def pyTruthy : Option String → Bool
  | none => false
  | some s => !s.isEmpty

/-- Python `x or "<none>"` for an optional string: yields `"<none>"` when
the value is absent/None or empty, the string itself otherwise. -/
def orNone : Option String → String
  | none => "<none>"
  | some s => if s.isEmpty then "<none>" else s

/-- One character of CPython `html.escape(s, quote=True)`: the ampersand, angle brackets and both quote characters become entity references, every other character is unchanged.
(Sequential `str.replace` in CPython, with `&` replaced first, acts exactly
as this character-wise map.) -/
def escapeChar (c : Char) : List Char :=
  if c = '&' then "&amp;".toList
  else if c = '<' then "&lt;".toList
  else if c = '>' then "&gt;".toList
  else if c = Char.ofNat 34 then "&quot;".toList
  else if c = Char.ofNat 39 then "&#x27;".toList
  else [c]

/-- CPython `html.escape(s)` (with the default `quote=True`), as used at
`main.py:174`. -/
def html_escape (s : String) : String :=
  String.mk (s.toList.map escapeChar).flatten

/-- Python `s[:n]` on a string: the first `n` characters (code points). -/
def pySlice (s : String) (n : Nat) : String :=
  String.mk (s.toList.take n)

/-- Python `int(x)` on a real number: truncation toward zero (`math.floor`
for nonnegative values, `math.ceil` for negative ones).  The float returned
by the injected clock is modelled as a rational. -/
def pyInt (q : ℚ) : ℤ :=
  if 0 ≤ q then ⌊q⌋ else ⌈q⌉

/-- Python line-break characters recognised by `str.splitlines`:
`\n`, `\r`, `\v` (0x0B), `\f` (0x0C), 0x1C–0x1E, 0x85, U+2028, U+2029. -/
def isLineBreak (c : Char) : Bool :=
  c = '\n' || c = '\r' || c.val = 0x0B || c.val = 0x0C ||
  c.val = 0x1C || c.val = 0x1D || c.val = 0x1E || c.val = 0x85 ||
  c.val = 0x2028 || c.val = 0x2029

/-- Worker for `splitlines`: `cur` holds the characters of the current line
in reverse.  A line-break character emits the current line (with `"\r\n"`
counting as a single break); at the end of input the current line is emitted
only if it is nonempty, so a trailing break produces no extra empty line and
the empty string produces no lines at all. -/
def splitlinesAux : List Char → List Char → List (List Char)
  | [], cur => if cur.isEmpty then [] else [cur.reverse]
  | '\r' :: '\n' :: rest, cur => cur.reverse :: splitlinesAux rest []
  | c :: rest, cur =>
      if isLineBreak c then cur.reverse :: splitlinesAux rest []
      else splitlinesAux rest (c :: cur)

/-- Python `str.splitlines()`, as used at `main.py:102`. -/
def splitlines (s : String) : List String :=
  (splitlinesAux s.toList []).map (fun cs => String.mk cs)

/-! ## Text Source (`FortuneBot.get_output`, `main.py:61-69`) -/

/-- The result object of the injected runner (`subprocess.CompletedProcess`
or a test double).  `none` models an absent attribute or a `None` value,
which `getattr(p, _, default)`-with-truthiness treats alike. -/
structure CompletedProcess where
  stdout : Option String
  stderr : Option String
deriving DecidableEq

/-- Outcome of calling the injected runner: either it raises
`subprocess.TimeoutExpired` or it returns a process-result object. -/
inductive RunnerResult where
  | timeout
  | ok (p : CompletedProcess)
deriving DecidableEq

/-- `FortuneBot.get_output` (`main.py:61-69`): on `TimeoutExpired` return the
literal `"(command timed out)"`; on a truthy `stdout` return it with trailing
newlines stripped; otherwise return the `"(no stdout)"` diagnostic with the
stderr text (or `"<none>"`). -/
def get_output (r : RunnerResult) : String :=
  match r with
  | .timeout => "(command timed out)"
  | .ok p =>
      if pyTruthy p.stdout then rstripNewlines (p.stdout.getD "")
      else "(no stdout)\n\nstderr:\n" ++ orNone p.stderr

/-! ## Renderer measurement (`FortuneBot._measure_line`, `main.py:71-99`) -/

/-- Outcome of calling one measurement API on the drawing surface or font:
a value, an `AttributeError` (the interface is absent in this library
version), or some other exception. -/
inductive ApiResult (α : Type) where
  | ok (v : α)
  | attributeError
  | otherError
deriving DecidableEq

/-- Measurement behaviour of the drawing surface and font that
`render_image` constructs: the three APIs probed by `_measure_line`.
`textbbox`/`getbbox` yield a bounding box `(x0, y0, x1, y1)`; the
`.size` of `getmask` is a pixel `(width, height)` pair and never signals absence. -/
structure MeasureEnv where
  textbbox : String → ApiResult (Int × Int × Int × Int)
  getbbox : String → ApiResult (Int × Int × Int × Int)
  getmask_size : String → Nat × Nat

/-- `FortuneBot._measure_line` (`main.py:71-99`).  An empty line is replaced
by a single space; then `draw.textbbox`, `font.getbbox` and
`font.getmask(...).size` are tried in order, moving on only on
`AttributeError`; other exceptions propagate (`Except.error`). -/
def measure_line (env : MeasureEnv) (line : String) : Except Unit (Int × Int) :=
  let line := if line.isEmpty then " " else line
  match env.textbbox line with
  | .ok (x0, y0, x1, y1) => .ok (x1 - x0, y1 - y0)
  | .otherError => .error ()
  | .attributeError =>
      match env.getbbox line with
      | .ok (x0, y0, x1, y1) => .ok (x1 - x0, y1 - y0)
      | .otherError => .error ()
      | .attributeError =>
          let wh := env.getmask_size line
          .ok ((wh.1 : Int), (wh.2 : Int))

/-! ## Renderer canvas sizing (`FortuneBot.render_image`, `main.py:101-131`) -/

/-- The measurement loop of `render_image` (`main.py:121-128`): running
maxima `max_w`, `max_h` start at 0 and are bumped by the measured
size of each line; a propagated measurement exception aborts the loop. -/
def measureLoop (env : MeasureEnv) : List String → Int → Int → Except Unit (Int × Int)
  | [], mw, mh => .ok (mw, mh)
  | ln :: rest, mw, mh =>
      match measure_line env ln with
      | .error e => .error e
      | .ok (w, hh) =>
          measureLoop env rest (if w > mw then w else mw) (if hh > mh then hh else mh)

/-- The default padding of the `FortuneBot` constructor (`main.py:36`). -/
def defaultPadding : Int := 12

/-- `text.splitlines() or [""]` (`main.py:102`): Python `or` replaces an
empty (falsy) line list by a single empty line. -/
def pyLines (text : String) : List String :=
  if (splitlines text).isEmpty then [""] else splitlines text

/-- The maximum of a list of integers as computed by the measurement loop:
fold of `max` with the initial loop value 0. -/
def listMax0 (xs : List Int) : Int :=
  xs.foldl max 0

/-- The line list and canvas size computed by `FortuneBot.render_image`
(`main.py:101-131`): `lines = text.splitlines() or [""]`, then
`img_w = max_w + padding * 2` and `img_h = max(1, max_h * len(lines)) +
padding * 2`.  Font loading, drawing and PNG encoding do not affect these
dimensions and are abstracted into `env`. -/
def render_image_canvas (env : MeasureEnv) (padding : Int) (text : String) :
    Except Unit (Int × Int) :=
  let lines := pyLines text
  match measureLoop env lines 0 0 with
  | .error e => .error e
  | .ok (max_w, max_h) =>
      .ok (max_w + padding * 2, max 1 (max_h * (lines.length : Int)) + padding * 2)

/-! ## Publisher (`FortuneBot.post_photo`, `main.py:150-159`) -/

/-- Python exceptions relevant to the program, classified by the classes the
source tests for.  `httpError` is `requests.HTTPError` (carrying the HTTP
status), `requestExc` any other `requests.RequestException` (network layer),
`osError` covers `OSError`/`IOError`, `valueError` is `ValueError`, `other`
is any exception outside those classes. -/
inductive PyExc where
  | httpError (status : Int)
  | requestExc
  | osError
  | valueError
  | other
deriving DecidableEq

/-- The `RequestException` class of the real `requests` module, which
`run_once` falls back to when the injected module has no `RequestException`
attribute (`main.py:190`; the test doubles of the repository have none).  In
`requests`, `HTTPError` — raised by `raise_for_status` — and the
network-layer exceptions are both subclasses of `RequestException`. -/
def requests_RequestException : PyExc → Bool
  | .httpError _ => true
  | .requestExc => true
  | _ => false

/-- The multipart `sendPhoto` request handed to `requests.post`
(`main.py:151-157`): the URL, the form-data fields in insertion order, and
the file parts `name ↦ (filename, bytes, mime)`. -/
structure PostCall where
  url : String
  data : List (String × String)
  files : List (String × (String × List Nat × String))
deriving DecidableEq

/-- The parsed JSON body of the Telegram response, reduced to what
`run_once` inspects: whether `resp.get("ok")` is truthy. -/
structure TgPayload where
  okTruthy : Bool
deriving DecidableEq

/-- Behaviour of the `post` of the injected module: either the call itself raises,
or it returns a response with a status code and a body-parsing outcome
(`r.json()` may itself raise). -/
inductive PostOutcome where
  | raises (e : PyExc)
  | resp (status : Int) (jsonResult : Except PyExc TgPayload)

/-- The outcome of the injected `render_image` on an output string: PNG
bytes, or an exception (`render_image` itself re-raises PNG-encoding
failures, and a swapped-in renderer may raise anything). -/
abbrev RenderFn := String → Except PyExc (List Nat)

/-- A `FortuneBot` instance with its injected collaborators
(`main.py:26-47`): token, chat id, command runner outcome, clock value,
renderer behaviour, HTTP transport behaviour, and the `RequestException`
category that `getattr(self.requests, "RequestException", ...)` resolves to. -/
structure Bot where
  token : String
  chat_id : String
  runner : RunnerResult
  time_val : ℚ
  render_image : RenderFn
  requests_post : PostCall → PostOutcome
  req_exc_cat : PyExc → Bool

/-- The request that `post_photo` builds (`main.py:151-156`): the fixed URL,
`files = {"photo": ("fortune.png", image_bytes, "image/png")}`,
`data = {"chat_id": ...}` plus — only when the caption is truthy —
`caption` (truncated to 1024 characters) and `parse_mode = "HTML"`. -/
def post_photo_call (b : Bot) (image_bytes : List Nat) (caption : Option String) :
    PostCall :=
  { url := "https://api.telegram.org/bot" ++ b.token ++ "/sendPhoto"
    data := [("chat_id", b.chat_id)] ++
      (match caption with
       | some c => if c.isEmpty then [] else [("caption", pySlice c 1024), ("parse_mode", "HTML")]
       | none => [])
    files := [("photo", ("fortune.png", image_bytes, "image/png"))] }

/-- `FortuneBot.post_photo` (`main.py:150-159`): send the multipart request,
then `r.raise_for_status()` — which, per the response double of the repository
(`tests/conftest.py:17-18`) and the spec, raises `requests.HTTPError`
whenever the status is not 2xx — and only then `r.json()`.  Returns the
parsed payload or the propagated exception, together with the list of
transport calls made. -/
def post_photo (b : Bot) (image_bytes : List Nat) (caption : Option String) :
    Except PyExc TgPayload × List PostCall :=
  let call := post_photo_call b image_bytes caption
  match b.requests_post call with
  | .raises e => (.error e, [call])
  | .resp status jsonResult =>
      if 200 ≤ status ∧ status < 300 then (jsonResult, [call])
      else (.error (.httpError status), [call])

/-! ## Orchestrator (`FortuneBot.run_once`, `main.py:161-194`) -/

/-- The caption template of `main.py:173`. -/
def captionTemplate : String := "Your fortune cookie for the day. Epoch time: "

/-- The caption computed at `main.py:172-174`:
`html.escape(f"Your fortune cookie for the day. Epoch time: {int(t)}")[:1024]`. -/
def run_once_caption (t : ℚ) : String :=
  pySlice (html_escape (captionTemplate ++ toString (pyInt t))) 1024

/-- `FortuneBot.run_once` (`main.py:161-194`).  Returns the exit code (or a
propagated exception) together with the transport calls made:
command output → caption from the clock → render (exit 4 on
`OSError`/`IOError`/`ValueError`) → `post_photo` (exit 0 on `ok` truthy,
3 otherwise; an exception in the resolved `RequestException` category gives
exit 5, any other exception is re-raised). -/
def run_once (b : Bot) : Except PyExc Int × List PostCall :=
  let image_source := get_output b.runner
  let caption := run_once_caption b.time_val
  match b.render_image image_source with
  | .error e =>
      if e = .osError ∨ e = .valueError then (.ok 4, [])
      else (.error e, [])
  | .ok img =>
      match post_photo b img (some caption) with
      | (.ok payload, calls) =>
          if payload.okTruthy then (.ok 0, calls) else (.ok 3, calls)
      | (.error e, calls) =>
          if b.req_exc_cat e then (.ok 5, calls) else (.error e, calls)

/-- The `caption` form field of a transport call. -/
def captionField (c : PostCall) : Option String :=
  List.lookup "caption" c.data

/-! ## General lemmas about the embedded operations -/

theorem toList_mk (cs : List Char) : (String.mk cs).toList = cs := rfl

theorem pySlice_idem (s : String) (n : Nat) : pySlice (pySlice s n) n = pySlice s n := by
  simp [pySlice, toList_mk, List.take_take]

theorem caption_toList (t : ℚ) :
    (captionTemplate ++ toString (pyInt t)).toList
      = captionTemplate.toList ++ (toString (pyInt t)).toList := by
  exact String.data_append captionTemplate (toString (pyInt t))

/-- The caption of `main.py:172-174` always starts with the fixed template,
so it is never the empty string. -/
theorem run_once_caption_ne_empty (t : ℚ) : (run_once_caption t).isEmpty = false := by
  rw [Bool.eq_false_iff, Ne, String.isEmpty_iff]
  intro h
  have hlen : (run_once_caption t).toList.length = 0 := by rw [h]; rfl
  rw [show run_once_caption t
        = String.mk (((captionTemplate ++ toString (pyInt t)).toList.map
            escapeChar).flatten.take 1024) from rfl] at hlen
  rw [toList_mk, List.length_take, caption_toList, List.map_append,
    List.flatten_append, List.length_append] at hlen
  have h45 : (captionTemplate.toList.map escapeChar).flatten.length = 45 := by decide
  omega

/-- The transport call made by `post_photo` on a nonempty caption `cap`
carries `pySlice cap 1024` in the `caption` field. -/
theorem captionField_post_photo_call (b : Bot) (img : List Nat) (cap : String)
    (hcap : cap.isEmpty = false) :
    captionField (post_photo_call b img (some cap)) = some (pySlice cap 1024) := by
  simp [captionField, post_photo_call, hcap, List.lookup]

/-- `post_photo` always makes exactly one transport call: the request it
builds. -/
theorem post_photo_calls (b : Bot) (img : List Nat) (cap : Option String) :
    (post_photo b img cap).2 = [post_photo_call b img cap] := by
  simp only [post_photo]
  rcases hp : b.requests_post (post_photo_call b img cap) with e | ⟨st, jr⟩ <;> simp only [hp]
  split <;> rfl

/-- When rendering succeeds, the calls recorded by `run_once` are exactly
the single `post_photo` call. -/
theorem run_once_snd (b : Bot) (img : List Nat)
    (hr : b.render_image (get_output b.runner) = .ok img) :
    (run_once b).2 = [post_photo_call b img (some (run_once_caption b.time_val))] := by
  have hpp := post_photo_calls b img (some (run_once_caption b.time_val))
  simp only [run_once, hr]
  rcases hp : post_photo b img (some (run_once_caption b.time_val)) with ⟨res, calls⟩
  rw [hp] at hpp
  rcases res with e | payload <;> simp only
  · split <;> exact hpp
  · split <;> exact hpp

/-- When rendering fails with an exception of any kind, `run_once` makes no
transport call. -/
theorem run_once_snd_render_error (b : Bot) (e : PyExc)
    (hr : b.render_image (get_output b.runner) = .error e) :
    (run_once b).2 = [] := by
  simp only [run_once, hr]
  split <;> rfl

/-- Every transport call recorded by `run_once` is the single `sendPhoto`
call built from the rendered bytes and the caption of `main.py:172-174`. -/
theorem run_once_calls (b : Bot) (c : PostCall) (hc : c ∈ (run_once b).2) :
    ∃ img : List Nat,
      b.render_image (get_output b.runner) = .ok img ∧
      c = post_photo_call b img (some (run_once_caption b.time_val)) := by
  rcases hr : b.render_image (get_output b.runner) with e | img
  · rw [run_once_snd_render_error b e hr] at hc
    cases hc
  · refine ⟨img, rfl, ?_⟩
    rw [run_once_snd b img hr] at hc
    simpa using hc

/-- The caption field of every call recorded by `run_once` is exactly
`run_once_caption b.time_val` — a value of the clock alone. -/
theorem run_once_captionField (b : Bot) (c : PostCall) (hc : c ∈ (run_once b).2) :
    captionField c = some (run_once_caption b.time_val) := by
  obtain ⟨img, -, hcall⟩ := run_once_calls b c hc
  rw [hcall, captionField_post_photo_call b img _ (run_once_caption_ne_empty _),
    run_once_caption, pySlice_idem]

/-! ## Claim theorems -/

/-- Claim C7: When the command runner raises the timeout condition,
`get_output` catches it and returns exactly the literal string
`"(command timed out)"` — it never raises for this case — and the overall
run continues: if the renderer accepts that placeholder, `run_once` still
makes its upload call. -/
theorem get_output_timeout_recovered :
    get_output .timeout = "(command timed out)" ∧
    (∀ (b : Bot) (img : List Nat), b.runner = .timeout →
      b.render_image "(command timed out)" = .ok img →
      (run_once b).2 = [post_photo_call b img (some (run_once_caption b.time_val))]) := by
  refine ⟨rfl, fun b img hrun hrender => ?_⟩
  exact run_once_snd b img (by rw [hrun]; exact hrender)

/-- Concrete timed-out run for `get_output_timeout_recovered`. -/
def tbot : Bot :=
  { token := "tok", chat_id := "@c", runner := .timeout, time_val := 0,
    render_image := fun _ => .ok [137], requests_post := fun _ => .resp 200 (.ok ⟨true⟩),
    req_exc_cat := requests_RequestException }

/-- Witness: a run whose command times out still posts its photo. -/
theorem get_output_timeout_recovered_witness :
    (run_once tbot).2 = [post_photo_call tbot [137] (some (run_once_caption 0))] :=
  get_output_timeout_recovered.2 tbot [137] rfl rfl

/-- Claim C9: The boundary between the two success branches of `get_output` is
stdout truthiness, not emptiness after stripping: a stdout consisting only
of newline characters yields the empty string (trailing newlines stripped),
not the `"(no stdout)"` diagnostic; stdout is falsy exactly when it is
absent/None or empty; on a falsy stdout the diagnostic with stderr (or
`"<none>"` when stderr is empty) is returned, and on a truthy stdout the
stripped stdout is returned. -/
theorem get_output_truthiness_boundary :
    (∀ (s : String) (st : Option String), s ≠ "" → (∀ c ∈ s.toList, c = '\n') →
        get_output (.ok ⟨some s, st⟩) = "") ∧
    (∀ p : CompletedProcess,
        pyTruthy p.stdout = false ↔ (p.stdout = none ∨ p.stdout = some "")) ∧
    (∀ p : CompletedProcess, pyTruthy p.stdout = false →
        get_output (.ok p) = "(no stdout)\n\nstderr:\n" ++ orNone p.stderr) ∧
    (∀ p : CompletedProcess, pyTruthy p.stdout = true →
        get_output (.ok p) = rstripNewlines (p.stdout.getD "")) := by
  refine ⟨?_, ?_, ?_, ?_⟩
  · intro s st hs hnl
    have hsE : s.isEmpty = false := by
      rw [Bool.eq_false_iff, Ne, String.isEmpty_iff]; exact hs
    have hdrop : List.dropWhile (fun c => decide (c = '\n')) s.data.reverse = [] := by
      rw [List.dropWhile_eq_nil_iff]
      intro x hx
      simp [hnl x (List.mem_reverse.mp hx)]
    simp [get_output, pyTruthy, hsE, rstripNewlines, hdrop]
  · intro p
    rcases p with ⟨stdout, stderr⟩
    rcases stdout with _ | s <;> simp [pyTruthy, String.isEmpty_iff]
  · intro p hp
    simp [get_output, hp]
  · intro p hp
    simp [get_output, hp]

/-- Witness: stdout `"\n"` takes the truthy branch and strips to `""`. -/
theorem get_output_truthiness_boundary_witness :
    get_output (.ok ⟨some "\n", some "oops"⟩) = "" :=
  get_output_truthiness_boundary.1 "\n" (some "oops") (by decide) (by decide)

/-- Claim C10: With a caption of `None` or the empty string, the form data of
`post_photo` contains neither a `caption` nor a `parse_mode` field; every
call carries the `chat_id` field and the `photo` file part
`("fortune.png", bytes, "image/png")`. -/
theorem post_photo_call_fields :
    (∀ (b : Bot) (img : List Nat) (cap : Option String), (cap = none ∨ cap = some "") →
        captionField (post_photo_call b img cap) = none ∧
        List.lookup "parse_mode" (post_photo_call b img cap).data = none) ∧
    (∀ (b : Bot) (img : List Nat) (cap : Option String),
        List.lookup "chat_id" (post_photo_call b img cap).data = some b.chat_id ∧
        (post_photo_call b img cap).files = [("photo", ("fortune.png", img, "image/png"))]) := by
  constructor
  · intro b img cap hcap
    rcases hcap with h | h <;> subst h <;> exact ⟨rfl, rfl⟩
  · intro b img cap
    exact ⟨rfl, rfl⟩

/-- Concrete bot for the `post_photo_call_fields` witness. -/
def pbot : Bot :=
  { token := "tok", chat_id := "@c", runner := .ok ⟨some "hello\n", some ""⟩, time_val := 0,
    render_image := fun _ => .ok [137], requests_post := fun _ => .resp 200 (.ok ⟨true⟩),
    req_exc_cat := requests_RequestException }

/-- Witness: a `None` caption yields no `caption`/`parse_mode` field. -/
theorem post_photo_call_fields_witness :
    captionField (post_photo_call pbot [1] none) = none ∧
    List.lookup "parse_mode" (post_photo_call pbot [1] none).data = none :=
  post_photo_call_fields.1 pbot [1] none (Or.inl rfl)

/-- Claim C5: When the transport `post` raises an exception in the
`RequestException` category of the injected module, `run_once` catches it and returns
exit code 5. -/
theorem run_once_network_error_exit5 :
    ∀ (b : Bot) (img : List Nat) (e : PyExc),
      b.render_image (get_output b.runner) = .ok img →
      b.requests_post (post_photo_call b img (some (run_once_caption b.time_val)))
        = .raises e →
      b.req_exc_cat e = true →
      (run_once b).1 = .ok 5 := by
  intro b img e hr hp hcat
  simp only [run_once, hr, post_photo, hp, hcat, if_true]

/-- Concrete bot whose transport raises a network-layer error. -/
def nbot : Bot :=
  { token := "tok", chat_id := "@c", runner := .ok ⟨some "hello\n", some ""⟩, time_val := 0,
    render_image := fun _ => .ok [137], requests_post := fun _ => .raises .requestExc,
    req_exc_cat := requests_RequestException }

/-- Witness: a raised `RequestException` gives exit code 5. -/
theorem run_once_network_error_exit5_witness :
    (run_once nbot).1 = .ok 5 :=
  run_once_network_error_exit5 nbot [137] .requestExc rfl rfl rfl

/-- Claim C8: When the renderer raises an `OSError`/`IOError` or `ValueError`,
`run_once` returns exit code 4 and the publisher is never invoked: the run
makes no transport call. -/
theorem run_once_render_failure_exit4 :
    ∀ (b : Bot) (e : PyExc),
      b.render_image (get_output b.runner) = .error e →
      (e = .osError ∨ e = .valueError) →
      run_once b = (.ok 4, []) := by
  intro b e hr he
  simp only [run_once, hr, he, if_true]

/-- Concrete bot whose renderer raises `OSError`. -/
def rbot : Bot :=
  { token := "tok", chat_id := "@c", runner := .ok ⟨some "hello\n", some ""⟩, time_val := 0,
    render_image := fun _ => .error .osError, requests_post := fun _ => .resp 200 (.ok ⟨true⟩),
    req_exc_cat := requests_RequestException }

/-- Witness: a rendering `OSError` gives exit code 4 with no upload. -/
theorem run_once_render_failure_exit4_witness :
    run_once rbot = (.ok 4, []) :=
  run_once_render_failure_exit4 rbot .osError rfl (Or.inl rfl)

/-- Claim C1: The caption that `run_once` passes to the publisher is
byte-for-byte independent of the Command Output: two runs that differ only
in the runner behind `get_output`, with the same clock value (and the same
remaining collaborators), record identical `caption` fields in their
transport calls. -/
theorem run_once_caption_independent_of_output :
    ∀ (b₁ b₂ : Bot),
      b₁.token = b₂.token → b₁.chat_id = b₂.chat_id → b₁.time_val = b₂.time_val →
      b₁.render_image = b₂.render_image → b₁.requests_post = b₂.requests_post →
      b₁.req_exc_cat = b₂.req_exc_cat →
      ∀ c₁ ∈ (run_once b₁).2, ∀ c₂ ∈ (run_once b₂).2,
        captionField c₁ = captionField c₂ := by
  intro b₁ b₂ _ _ ht _ _ _ c₁ hc₁ c₂ hc₂
  rw [run_once_captionField b₁ c₁ hc₁, run_once_captionField b₂ c₂ hc₂, ht]

/-- Concrete run for the C1 witness. -/
def ibotA : Bot :=
  { token := "tok", chat_id := "@c", runner := .ok ⟨some "hello\n", some ""⟩, time_val := 5,
    render_image := fun _ => .ok [137], requests_post := fun _ => .resp 200 (.ok ⟨true⟩),
    req_exc_cat := requests_RequestException }

/-- The same run with a different command output. -/
def ibotB : Bot :=
  { ibotA with runner := .ok ⟨some "totally different output", none⟩ }

/-- Witness: two runs differing only in command output record equal
captions. -/
theorem run_once_caption_independent_witness :
    captionField (post_photo_call ibotA [137] (some (run_once_caption 5)))
      = captionField (post_photo_call ibotB [137] (some (run_once_caption 5))) :=
  run_once_caption_independent_of_output ibotA ibotB rfl rfl rfl rfl rfl rfl
    _ (by rw [run_once_snd ibotA [137] rfl]; exact List.mem_singleton.mpr rfl)
    _ (by rw [run_once_snd ibotB [137] rfl]; exact List.mem_singleton.mpr rfl)

/-- The caption formula as the spec words it: with `floor` of the clock
value (modelled from the `floor(currentTimeSeconds)` of the spec for
comparison with the `int(...)` of the code). -/
def spec_caption_floor (t : ℚ) : String :=
  pySlice (html_escape (captionTemplate ++ toString (⌊t⌋ : ℤ))) 1024

/-- Concrete bot whose injected clock returns `-1/2`. -/
def fbot : Bot :=
  { token := "tok", chat_id := "@c", runner := .ok ⟨some "hello\n", some ""⟩,
    time_val := -(1/2 : ℚ),
    render_image := fun _ => .ok [137], requests_post := fun _ => .resp 200 (.ok ⟨true⟩),
    req_exc_cat := requests_RequestException }

/-- Counterexample to claim C2: At clock value `-1/2` the caption actually passed
to the publisher is the `int()`-truncated `"... Epoch time: 0"`, while the
floor formula of the spec yields `"... Epoch time: -1"`: the claimed equation
fails on this run. -/
theorem run_once_caption_not_floor :
    (run_once fbot).2.map captionField
        = [some "Your fortune cookie for the day. Epoch time: 0"] ∧
    spec_caption_floor (-(1/2 : ℚ)) = "Your fortune cookie for the day. Epoch time: -1" ∧
    (run_once fbot).2.map captionField ≠ [some (spec_caption_floor (-(1/2 : ℚ)))] := by
  have hint : pyInt (-(1/2 : ℚ)) = 0 := by
    rw [pyInt, if_neg (by norm_num)]
    norm_num
  have hcap : run_once_caption (-(1/2 : ℚ))
      = "Your fortune cookie for the day. Epoch time: 0" := by
    rw [run_once_caption, hint]; decide
  have hfl : spec_caption_floor (-(1/2 : ℚ))
      = "Your fortune cookie for the day. Epoch time: -1" := by
    rw [spec_caption_floor, show (⌊-(1/2 : ℚ)⌋ : ℤ) = -1 by norm_num]; decide
  have htv : fbot.time_val = -(1/2 : ℚ) := rfl
  have hsnd : (run_once fbot).2
      = [post_photo_call fbot [137] (some (run_once_caption fbot.time_val))] :=
    run_once_snd fbot [137] rfl
  have hmap : (run_once fbot).2.map captionField
      = [some "Your fortune cookie for the day. Epoch time: 0"] := by
    rw [hsnd, List.map_singleton,
      captionField_post_photo_call fbot [137] _ (run_once_caption_ne_empty _),
      run_once_caption, pySlice_idem, ← run_once_caption, htv, hcap]
  refine ⟨hmap, hfl, ?_⟩
  rw [hmap, hfl]
  decide

/-- Claim C2 as amended: The caption recorded in every transport call of
`run_once` equals `html.escape("Your fortune cookie for the day. Epoch
time: " + int(t))` truncated to its first 1024 characters, where `t` is the
value of the injected clock and `int` truncates toward zero; for a nonnegative
clock value this truncation agrees with the `floor(t)` of the spec. -/
theorem run_once_caption_formula :
    (∀ (b : Bot), ∀ c ∈ (run_once b).2,
        captionField c
          = some (pySlice (html_escape (captionTemplate ++ toString (pyInt b.time_val)))
              1024)) ∧
    (∀ t : ℚ, 0 ≤ t → pyInt t = ⌊t⌋) := by
  constructor
  · intro b c hc
    exact run_once_captionField b c hc
  · intro t ht
    simp [pyInt, ht]

/-- Concrete run for the amended-C2 witness. -/
def qbot : Bot :=
  { token := "tok", chat_id := "@c", runner := .ok ⟨some "hello\n", some ""⟩, time_val := 7,
    render_image := fun _ => .ok [137], requests_post := fun _ => .resp 200 (.ok ⟨true⟩),
    req_exc_cat := requests_RequestException }

/-- Witness: the caption of a concrete run follows the `int()` formula. -/
theorem run_once_caption_formula_witness :
    captionField (post_photo_call qbot [137] (some (run_once_caption 7)))
      = some (pySlice (html_escape (captionTemplate ++ toString (pyInt 7))) 1024) :=
  run_once_caption_formula.1 qbot _
    (by rw [run_once_snd qbot [137] rfl]; exact List.mem_singleton.mpr rfl)

/-- Concrete bot whose transport returns an HTTP 500 response. -/
def hbot : Bot :=
  { token := "tok", chat_id := "@c", runner := .ok ⟨some "hello\n", some ""⟩, time_val := 0,
    render_image := fun _ => .ok [137],
    requests_post := fun _ => .resp 500 (.ok ⟨true⟩),
    req_exc_cat := requests_RequestException }

/-- Counterexample to claim C6: With the `requests` exception hierarchy (the
`getattr` fallback of `main.py:190`, which also applies to the test doubles of the
repository since they lack a `RequestException` attribute), the
`HTTPError` raised for an HTTP 500 response IS caught by `run_once`: the
run returns exit code 5 normally instead of letting the error propagate to
a fatal exit distinct from code 5. -/
theorem run_once_http500_caught :
    (run_once hbot).1 = .ok 5 ∧ ∀ e : PyExc, (run_once hbot).1 ≠ .error e := by
  have h : (run_once hbot).1 = .ok 5 := rfl
  exact ⟨h, fun e => by rw [h]; exact fun hh => Except.noConfusion hh⟩

/-- Claim C6 as amended: For a non-2xx status, `post_photo` raises
`HTTPError(status)` before attempting to parse the response body (the
result is the same whatever the body-parsing outcome `jr` would have been);
`run_once` catches exactly the exceptions of the resolved
`RequestException` category, and `HTTPError` belongs to that category for
the `requests` module, so the HTTP-status error is mapped to exit code 5
rather than propagating; only an exception outside the category propagates
uncaught. -/
theorem post_photo_http_error_path :
    (∀ (b : Bot) (img : List Nat) (cap : Option String) (status : Int)
        (jr : Except PyExc TgPayload),
        ¬(200 ≤ status ∧ status < 300) →
        b.requests_post (post_photo_call b img cap) = .resp status jr →
        post_photo b img cap = (.error (.httpError status), [post_photo_call b img cap])) ∧
    requests_RequestException (.httpError 500) = true ∧
    (∀ (b : Bot) (img : List Nat) (status : Int) (jr : Except PyExc TgPayload),
        b.render_image (get_output b.runner) = .ok img →
        b.requests_post (post_photo_call b img (some (run_once_caption b.time_val)))
          = .resp status jr →
        ¬(200 ≤ status ∧ status < 300) →
        b.req_exc_cat (.httpError status) = true →
        (run_once b).1 = .ok 5) ∧
    (∀ (b : Bot) (img : List Nat) (e : PyExc),
        b.render_image (get_output b.runner) = .ok img →
        b.requests_post (post_photo_call b img (some (run_once_caption b.time_val)))
          = .raises e →
        b.req_exc_cat e = false →
        run_once b = (.error e,
          [post_photo_call b img (some (run_once_caption b.time_val))])) := by
  refine ⟨?_, rfl, ?_, ?_⟩
  · intro b img cap status jr hst hp
    simp only [post_photo, hp, hst, if_false]
  · intro b img status jr hr hp hst hcat
    simp only [run_once, hr, post_photo, hp, hst, if_false, hcat, if_true]
  · intro b img e hr hp hcat
    simp only [run_once, hr, post_photo, hp, hcat, Bool.false_eq_true, if_false]

/-- Witness: a concrete HTTP 500 response makes `post_photo` raise
`HTTPError` without consulting the body. -/
theorem post_photo_http_error_path_witness :
    post_photo hbot [137] none = (.error (.httpError 500), [post_photo_call hbot [137] none]) :=
  post_photo_http_error_path.1 hbot [137] none 500 (.ok ⟨true⟩) (by decide) rfl

/-- Claim C4: `measure_line` tries exactly three strategies in order —
`draw.textbbox`, `font.getbbox`, `font.getmask(...).size` — advancing to
the next tier only when the current one signals interface/attribute absence
(`AttributeError`); any other error propagates immediately; and an empty
line is measured as a single space. -/
theorem measure_line_fallback :
    (∀ env : MeasureEnv, measure_line env "" = measure_line env " ") ∧
    (∀ (env : MeasureEnv) (line : String) (x0 y0 x1 y1 : Int), line ≠ "" →
        env.textbbox line = .ok (x0, y0, x1, y1) →
        measure_line env line = .ok (x1 - x0, y1 - y0)) ∧
    (∀ (env : MeasureEnv) (line : String), line ≠ "" →
        env.textbbox line = .otherError →
        measure_line env line = .error ()) ∧
    (∀ (env : MeasureEnv) (line : String) (x0 y0 x1 y1 : Int), line ≠ "" →
        env.textbbox line = .attributeError →
        env.getbbox line = .ok (x0, y0, x1, y1) →
        measure_line env line = .ok (x1 - x0, y1 - y0)) ∧
    (∀ (env : MeasureEnv) (line : String), line ≠ "" →
        env.textbbox line = .attributeError →
        env.getbbox line = .otherError →
        measure_line env line = .error ()) ∧
    (∀ (env : MeasureEnv) (line : String), line ≠ "" →
        env.textbbox line = .attributeError →
        env.getbbox line = .attributeError →
        measure_line env line
          = .ok (((env.getmask_size line).1 : Int), ((env.getmask_size line).2 : Int))) := by
  have hne : ∀ line : String, line ≠ "" → line.isEmpty = false := fun line h => by
    rw [Bool.eq_false_iff, Ne, String.isEmpty_iff]; exact h
  refine ⟨fun env => rfl, ?_, ?_, ?_, ?_, ?_⟩
  · intro env line x0 y0 x1 y1 h ht
    simp only [measure_line, hne line h, Bool.false_eq_true, if_false, ht]
  · intro env line h ht
    simp only [measure_line, hne line h, Bool.false_eq_true, if_false, ht]
  · intro env line x0 y0 x1 y1 h ht hg
    simp only [measure_line, hne line h, Bool.false_eq_true, if_false, ht, hg]
  · intro env line h ht hg
    simp only [measure_line, hne line h, Bool.false_eq_true, if_false, ht, hg]
  · intro env line h ht hg
    simp only [measure_line, hne line h, Bool.false_eq_true, if_false, ht, hg]

/-- A drawing/font environment on which only the rasterization tier is
available. -/
def wenv : MeasureEnv :=
  { textbbox := fun _ => .attributeError, getbbox := fun _ => .attributeError,
    getmask_size := fun ln => (5 * ln.length, 7) }

/-- Witness: with both bbox APIs absent, the mask size is used. -/
theorem measure_line_fallback_witness :
    measure_line wenv "ab" = .ok (10, 7) :=
  measure_line_fallback.2.2.2.2.2 wenv "ab" (by decide) rfl rfl

/-- The loop value `if w > mw then w else mw` of `main.py:125-128` is the
maximum. -/
theorem if_gt_eq_max (a b : Int) : (if b > a then b else a) = max a b := by
  rw [max_def]
  split <;> split <;> omega

theorem le_foldl_max (xs : List Int) : ∀ a : Int, a ≤ xs.foldl max a := by
  induction xs with
  | nil => exact fun a => le_refl a
  | cons y ys ih =>
      exact fun a => le_trans (le_max_left a y) (ih (max a y))

theorem mem_le_foldl_max (xs : List Int) :
    ∀ (a x : Int), x ∈ xs → x ≤ xs.foldl max a := by
  induction xs with
  | nil => intro a x hx; cases hx
  | cons y ys ih =>
      intro a x hx
      rcases List.mem_cons.mp hx with h | h
      · subst h
        exact le_trans (le_max_right a x) (le_foldl_max ys (max a x))
      · exact ih (max a y) x h

theorem foldl_max_mem (xs : List Int) :
    ∀ a : Int, xs.foldl max a = a ∨ xs.foldl max a ∈ xs := by
  induction xs with
  | nil => exact fun a => Or.inl rfl
  | cons y ys ih =>
      intro a
      rcases ih (max a y) with h | h
      · rcases max_choice a y with hm | hm
        · exact Or.inl (by rw [List.foldl_cons, h, hm])
        · exact Or.inr (by rw [List.foldl_cons, h, hm]; exact List.mem_cons_self y ys)
      · exact Or.inr (List.mem_cons_of_mem y h)

/-- The measurement loop of `main.py:121-128` computes the fold of `max`
over the measured sizes when every line measures successfully. -/
theorem measureLoop_eq_foldl (env : MeasureEnv) :
    ∀ (lines : List String) (sizes : List (Int × Int)),
      List.Forall₂ (fun ln wh => measure_line env ln = .ok wh) lines sizes →
      ∀ mw mh : Int,
        measureLoop env lines mw mh
          = .ok ((sizes.map Prod.fst).foldl max mw, (sizes.map Prod.snd).foldl max mh) := by
  intro lines sizes h
  induction h with
  | nil => intro mw mh; rfl
  | @cons ln wh lns whs hhd htl ih =>
      intro mw mh
      rcases wh with ⟨w, hh⟩
      simp only [measureLoop, hhd, List.map_cons, List.foldl_cons]
      rw [ih (if w > mw then w else mw) (if hh > mh then hh else mh),
        if_gt_eq_max mw w, if_gt_eq_max mh hh]

/-- Claim C3: `render_image` splits its input into lines — an input yielding
zero lines (the empty string gives `splitlines "" = []`) is treated as the
single empty line — and allocates a canvas of exactly
`width = maxW + padding * 2` and
`height = max 1 (maxH * lineCount) + padding * 2`, where `maxW`/`maxH` are
the maxima of the measured line widths/heights (`listMax0`, the fold of
`max` of the measurement loop from 0, which is the genuine maximum of
the measurements whenever they are nonnegative) and the configured padding
defaults to 12. -/
theorem render_image_canvas_dims :
    (splitlines "" = [] ∧ (∀ text, splitlines text = [] → pyLines text = [""]) ∧
      defaultPadding = 12) ∧
    (∀ (env : MeasureEnv) (padding : Int) (text : String) (sizes : List (Int × Int)),
        List.Forall₂ (fun ln wh => measure_line env ln = .ok wh) (pyLines text) sizes →
        render_image_canvas env padding text
          = .ok (listMax0 (sizes.map Prod.fst) + padding * 2,
                 max 1 (listMax0 (sizes.map Prod.snd) * ((pyLines text).length : Int))
                   + padding * 2)) ∧
    (∀ xs : List Int,
        (∀ x ∈ xs, x ≤ listMax0 xs) ∧
        ((∀ x ∈ xs, 0 ≤ x) → xs ≠ [] → listMax0 xs ∈ xs)) := by
  refine ⟨⟨rfl, ?_, rfl⟩, ?_, ?_⟩
  · intro text h
    rw [pyLines, h]
    rfl
  · intro env padding text sizes h
    rw [render_image_canvas, measureLoop_eq_foldl env (pyLines text) sizes h 0 0]
    rfl
  · intro xs
    refine ⟨fun x hx => mem_le_foldl_max xs 0 x hx, fun hpos hne => ?_⟩
    rcases foldl_max_mem xs 0 with h | h
    · rcases xs with _ | ⟨y, ys⟩
      · exact absurd rfl hne
      · have hy : y ≤ listMax0 (y :: ys) := mem_le_foldl_max _ 0 y (List.mem_cons_self y ys)
        have h0y : 0 ≤ y := hpos y (List.mem_cons_self y ys)
        have : listMax0 (y :: ys) = y := le_antisymm (by rw [listMax0, h]; exact h0y) hy
        rw [this]
        exact List.mem_cons_self y ys
    · exact h

/-- A drawing/font environment whose `textbbox` tier works. -/
def cenv : MeasureEnv :=
  { textbbox := fun ln => .ok (0, 0, 6 * (ln.length : Int), 11),
    getbbox := fun _ => .attributeError, getmask_size := fun _ => (0, 0) }

/-- Witness: a two-line input gives a `54 × 46` canvas at padding 12. -/
theorem render_image_canvas_dims_witness :
    render_image_canvas cenv 12 "hi\nthere" = .ok (54, 46) :=
  render_image_canvas_dims.2.1 cenv 12 "hi\nthere" [(12, 11), (30, 11)]
    (by
      rw [show pyLines "hi\nthere" = ["hi", "there"] from rfl]
      exact .cons rfl (.cons rfl .nil))

end FortuneBot
